import Mathlib

/-!
Shallow embedding of the PostgreSQL dependency-supervision logic of
`cli/commands/service.py` (class `ServiceManager`).

Modelling conventions:
* Filesystem paths are strings; `Path` joining `a / b` is modelled as
  `a ++ "/" ++ b`.
* A `subprocess.run(..., check=False, capture_output=True, text=True,
  timeout=t)` call is modelled by a `World.run` oracle mapping the invoked
  command (an `Act`) and the timeout in seconds to a `SubprocOutcome`:
  the call either completes with an exit code and captured stdout/stderr,
  raises `subprocess.TimeoutExpired`, raises `FileNotFoundError`, or raises
  an exception of any other type (`otherExn`, carrying its message) — the
  source code's `except` clauses are selective, so the last case matters.
* `MainService.get_main_status` (whose implementation is outside this
  repository's sources) is modelled by a `ProbeResult` oracle: it either
  returns a status dictionary (a `List (String × String)`) or raises.
* Console output (`print`) is modelled as an accumulated list of messages,
  and every external action performed is accumulated in a trace, so that
  "issues no invocation" and "reports X" are stateable.
* A Python method that may raise returns a `Step α`: its result value, the
  trace of actions, the printed lines, and `exn = some e` when the method
  terminated by raising `e` instead of returning.
-/

/-- Python exception values that can escape the modelled methods. -/
inductive PyExn where
  | other (msg : String)
  | valueError
  | osErr (msg : String)
  deriving DecidableEq, Repr

/-- External actions performed by the service manager (subprocess
invocations and process-control operations on the dev server). -/
inductive Act where
  | composeStop (file : String)
  | composeRm (file : String)
  | dockerStop
  | dockerRm
  | composeUp (file : String)
  | runServer
  | spawnServer
  | waitServer
  | signalGroupTerm
  | waitBounded
  | signalGroupKill
  | ctrlBreakSignal
  | terminateProc
  | waitBoundedWin
  | killProc
  deriving DecidableEq, Repr

/-- Outcome of one `subprocess.run` invocation. -/
inductive SubprocOutcome where
  | completed (returncode : Int) (stdout stderr : String)
  | timedOut
  | fileNotFound
  | otherExn (msg : String)
  deriving DecidableEq, Repr

/-- Outcome of one `MainService.get_main_status` call: the returned
status dictionary, or an exception. -/
inductive ProbeResult where
  | ok (statusMap : List (String × String))
  | exn (msg : String)
  deriving DecidableEq, Repr

/-- Errors `Path.resolve` may raise that `_resolve_compose_file` catches. -/
inductive ResolveErr where
  | fileNotFound
  | runtimeError
  deriving DecidableEq, Repr

/-- Outcome of launching and waiting on the dev-server subprocess. -/
inductive ServerRun where
  | exited (returncode : Int)
  | interrupted
  | osError (msg : String)
  deriving DecidableEq, Repr

/-- The external environment one `ServiceManager` invocation interacts
with: filesystem, environment variables, the status probe, and the
outcomes of every external process operation. -/
structure World where
  workspacePath : String
  resolveWorkspace : Except ResolveErr String
  fsExists : String → Bool
  probe : ProbeResult
  probeLater : ProbeResult
  envVar : String → Option String
  run : Act → Nat → SubprocOutcome
  serverRun : ServerRun
  isWindows : Bool
  killpgFound : Bool
  waitBoundedRC : Option Int
  sendSignalOk : Bool

/-- Result of a modelled Python method: returned value, trace of external
actions, printed lines, and the exception it raised (if any). -/
structure Step (α : Type) where
  val : α
  invs : List Act
  msgs : List String
  exn : Option PyExn
  deriving DecidableEq, Repr

/-- Sequencing of two modelled blocks: the second runs only when the first
did not raise; traces and printed lines accumulate. -/
def Step.seq {α β : Type} [Inhabited β] (s : Step α) (f : α → Step β) : Step β :=
  match s.exn with
  | some e => ⟨default, s.invs, s.msgs, some e⟩
  | none =>
    let t := f s.val
    ⟨t.val, s.invs ++ t.invs, s.msgs ++ t.msgs, t.exn⟩

/-- `needle.isPrefixOf hay` for char lists, written out. -/
def beginsWith : List Char → List Char → Bool
  | [], _ => true
  | _ :: _, [] => false
  | a :: as, b :: bs => a == b && beginsWith as bs

/-- Substring containment on char lists. -/
def hasSubList (needle : List Char) : List Char → Bool
  | [] => needle.isEmpty
  | c :: rest => beginsWith needle (c :: rest) || hasSubList needle rest

/-- Python's `sub in s` for strings. -/
def strContains (s sub : String) : Bool :=
  hasSubList sub.data s.data

/-- Python's `dict.get(key, dflt)` over an association list. -/
def dictGet (m : List (String × String)) (key dflt : String) : String :=
  match m.find? (fun p => p.1 == key) with
  | some p => p.2
  | none => dflt

/-- Python's `os.getenv(name, dflt)`. -/
def pyGetenvD (w : World) (name dflt : String) : String :=
  (w.envVar name).getD dflt

/-- ASCII whitespace (the characters Python's `str.strip()` removes). -/
def isPySpace (c : Char) : Bool :=
  c == ' ' || c == '\t' || c == '\n' || c == '\r' || c == '\x0b' || c == '\x0c'

/-- Python's `str.strip()`; written over char lists so it evaluates in
the kernel. -/
def pyStrip (s : String) : String :=
  ⟨((s.data.dropWhile isPySpace).reverse.dropWhile isPySpace).reverse⟩

/-- Decimal digit run to a number; `none` when empty or non-digit. -/
def parseNatDigits (l : List Char) : Option Nat :=
  match l with
  | [] => none
  | _ =>
    l.foldl
      (fun acc c =>
        match acc with
        | none => none
        | some n => if 48 ≤ c.toNat && c.toNat ≤ 57 then some (n * 10 + (c.toNat - 48)) else none)
      (some 0)

/-- Python's `int(s)` on a decimal string: strips whitespace, accepts an
optional sign; `none` models a raised `ValueError`. -/
def pyIntParse (s : String) : Option Int :=
  match pyStrip s with
  | ⟨'+' :: rest⟩ => (parseNatDigits rest).map Int.ofNat
  | ⟨'-' :: rest⟩ => (parseNatDigits rest).map fun n => -(n : Int)
  | ⟨l⟩ => (parseNatDigits l).map Int.ofNat

/-- ASCII lowering of one character (Python's `str.lower()` restricted to
ASCII, which covers the flag values compared against). -/
def lowerChar (c : Char) : Char :=
  if 65 ≤ c.toNat && c.toNat ≤ 90 then Char.ofNat (c.toNat + 32) else c

/-- Python's `str.lower()`. -/
def pyLower (s : String) : String :=
  ⟨s.data.map lowerChar⟩

/-- Python's `a or b` where `a` is an optional string (both `None` and the
empty string are falsy). -/
def pyOrStr (a : Option String) (b : String) : String :=
  match a with
  | some s => if s = "" then b else s
  | none => b

/-- The workspace root actually used: `self.workspace_path.resolve()`,
falling back to the raw path when resolution raises
`FileNotFoundError` or `RuntimeError` (`service.py` lines 645-648). -/
def effWorkspace (w : World) : String :=
  match w.resolveWorkspace with
  | .ok p => p
  | .error _ => w.workspacePath

/-- The candidate check of `_resolve_compose_file` at a given root. -/
def composeFileAt (w : World) (ws : String) : Option String :=
  let docker_compose_main := ws ++ "/docker/main/docker-compose.yml"
  let docker_compose_root := ws ++ "/docker-compose.yml"
  if w.fsExists docker_compose_main then some docker_compose_main
  else if w.fsExists docker_compose_root then some docker_compose_root
  else none

/-- `ServiceManager._resolve_compose_file` (`service.py` lines 643-657). -/
def _resolve_compose_file (w : World) : Option String :=
  composeFileAt w (effWorkspace w)

/-- The compose-based stop attempt inside `_stop_postgres_dependency`
(`service.py` lines 721-738): `docker compose -f <file> stop hive-postgres`
with timeout 30; returns the `stopped` flag. -/
def composeStopBlock (w : World) (f : String) : Step Bool :=
  match w.run (.composeStop f) 30 with
  | .completed rc _ stderr =>
    if rc = 0 then
      ⟨true, [.composeStop f], ["🛑 PostgreSQL dependency stopped"], none⟩
    else
      ⟨false, [.composeStop f],
        ["⚠️ PostgreSQL stop reported an issue: " ++ pyStrip stderr], none⟩
  | .timedOut =>
    ⟨false, [.composeStop f], ["⚠️ Timeout stopping PostgreSQL container"], none⟩
  | .fileNotFound =>
    ⟨false, [.composeStop f],
      ["⚠️ Docker not found while stopping PostgreSQL container"], none⟩
  | .otherExn m => ⟨false, [.composeStop f], [], some (.other m)⟩

/-- The compose-based removal inside `_stop_postgres_dependency`
(`service.py` lines 743-759): `docker compose -f <file> rm -f hive-postgres`
with timeout 30. -/
def composeRmBlock (w : World) (f : String) : Step Unit :=
  match w.run (.composeRm f) 30 with
  | .completed rc _ stderr =>
    if rc = 0 then
      ⟨(), [.composeRm f], ["🧹 Removed managed PostgreSQL container"], none⟩
    else
      ⟨(), [.composeRm f],
        ["⚠️ PostgreSQL container removal reported an issue: " ++ pyStrip stderr], none⟩
  | .timedOut =>
    ⟨(), [.composeRm f], ["⚠️ Timeout removing PostgreSQL container"], none⟩
  | .fileNotFound =>
    ⟨(), [.composeRm f],
      ["⚠️ Docker not found while removing PostgreSQL container"], none⟩
  | .otherExn m => ⟨(), [.composeRm f], [], some (.other m)⟩

/-- `ServiceManager._stop_postgres_by_container` (`service.py` lines
763-787): `docker stop hive-postgres` with timeout 30; a non-zero exit
with empty stripped stderr prints nothing. -/
def _stop_postgres_by_container (w : World) : Step Bool :=
  match w.run .dockerStop 30 with
  | .timedOut =>
    ⟨false, [.dockerStop],
      ["⚠️ Timeout stopping PostgreSQL container via docker stop"], none⟩
  | .fileNotFound =>
    ⟨false, [.dockerStop],
      ["⚠️ Docker not found while stopping PostgreSQL container via docker stop"], none⟩
  | .otherExn m => ⟨false, [.dockerStop], [], some (.other m)⟩
  | .completed rc _ stderr =>
    if rc = 0 then
      ⟨true, [.dockerStop], ["🛑 PostgreSQL dependency stopped (direct docker stop)"], none⟩
    else
      let s := pyStrip stderr
      ⟨false, [.dockerStop],
        if s = "" then [] else ["⚠️ docker stop hive-postgres reported an issue: " ++ s],
        none⟩

/-- `ServiceManager._remove_postgres_by_container` (`service.py` lines
789-808): `docker rm -f hive-postgres` with timeout 30. -/
def _remove_postgres_by_container (w : World) : Step Unit :=
  match w.run .dockerRm 30 with
  | .completed rc _ stderr =>
    if rc = 0 then
      ⟨(), [.dockerRm], ["🧹 Removed managed PostgreSQL container (direct docker rm)"], none⟩
    else
      let s := pyStrip stderr
      ⟨(), [.dockerRm],
        if s = "" then [] else ["⚠️ docker rm hive-postgres reported an issue: " ++ s],
        none⟩
  | .timedOut =>
    ⟨(), [.dockerRm], ["⚠️ Timeout removing PostgreSQL container via docker rm"], none⟩
  | .fileNotFound =>
    ⟨(), [.dockerRm],
      ["⚠️ Docker not found while removing PostgreSQL container via docker rm"], none⟩
  | .otherExn m => ⟨(), [.dockerRm], [], some (.other m)⟩

/-- First stage of `_stop_postgres_dependency` (`service.py` lines
716-738): the compose-based stop attempt, performed only when a compose
descriptor was resolved; `val` is the `stopped` flag. -/
def stopStep1 (w : World) : Step Bool :=
  match _resolve_compose_file w with
  | some f => composeStopBlock w f
  | none => ⟨false, [], [], none⟩

/-- Second stage of `_stop_postgres_dependency` (`service.py` lines
740-741): `if not stopped: stopped = self._stop_postgres_by_container()`. -/
def stopStep2 (w : World) : Step Bool :=
  (stopStep1 w).seq fun stopped =>
    if stopped then ⟨true, [], [], none⟩ else _stop_postgres_by_container w

/-- `ServiceManager._stop_postgres_dependency` (`service.py` lines
714-761): compose stop when a descriptor exists, name-based stop fallback,
then compose remove when a descriptor exists, else name-based remove when
the fallback stop succeeded. -/
def _stop_postgres_dependency (w : World) : Step Unit :=
  (stopStep2 w).seq fun stopped =>
    match _resolve_compose_file w with
    | some f => composeRmBlock w f
    | none => if stopped then _remove_postgres_by_container w else ⟨(), [], [], none⟩

/-- `ServiceManager._is_postgres_dependency_active` (`service.py` lines
810-816): probes the status map and tests `"✅" in status.get("hive-postgres", "")`;
any exception yields `false`. -/
def _is_postgres_dependency_active (w : World) : Bool :=
  match w.probe with
  | .exn _ => false
  | .ok m => strContains (dictGet m "hive-postgres" "") "✅"

/-- `ServiceManager.docker_status` (`service.py` lines 501-506): returns
the probed map, or the all-Stopped default map on any exception. -/
def docker_status (w : World) : List (String × String) :=
  match w.probe with
  | .ok m => m
  | .exn _ => [("hive-postgres", "🛑 Stopped"), ("hive-api", "🛑 Stopped")]

/-- `ServiceManager._ensure_postgres_dependency` (`service.py` lines
659-712). Returns `(is_running, started_by_manager)`; the outer
`except Exception` converts every escaping exception to `(False, False)`,
so `exn` is always `none`. -/
def _ensure_postgres_dependency (w : World) : Step (Bool × Bool) :=
  match w.probe with
  | .exn m =>
    ⟨(false, false), [], ["❌ Error ensuring PostgreSQL dependency: " ++ m], none⟩
  | .ok statusMap =>
    let postgres_status := dictGet statusMap "hive-postgres" ""
    if strContains postgres_status "✅ Running" then
      ⟨(true, false), [], ["✅ PostgreSQL dependency is already running"], none⟩
    else
      match _resolve_compose_file w with
      | none =>
        ⟨(false, false), [],
          ["❌ Docker compose file not found. Run --install to set up the environment."], none⟩
      | some compose_file =>
        if ! w.fsExists (w.workspacePath ++ "/.env") then
          ⟨(false, false), [],
            ["❌ .env file not found. Run --install to set up the environment first."], none⟩
        else
          let searching := "🔍 PostgreSQL dependency not running, starting automatically..."
          match w.run (.composeUp compose_file) 60 with
          | .completed rc _ stderr =>
            if rc ≠ 0 then
              ⟨(false, false), [.composeUp compose_file],
                [searching, "❌ Failed to start PostgreSQL: " ++ stderr], none⟩
            else
              ⟨(true, true), [.composeUp compose_file],
                [searching, "✅ PostgreSQL dependency started successfully"], none⟩
          | .timedOut =>
            ⟨(false, false), [.composeUp compose_file],
              [searching, "❌ Timeout starting PostgreSQL container"], none⟩
          | .fileNotFound =>
            ⟨(false, false), [.composeUp compose_file],
              [searching, "❌ Docker not found. Please install Docker and try again."], none⟩
          | .otherExn m =>
            ⟨(false, false), [.composeUp compose_file],
              [searching, "❌ Error ensuring PostgreSQL dependency: " ++ m], none⟩

/-- `use_graceful` flag of `serve_local` (`service.py` line 94):
`os.getenv("HIVE_DEV_GRACEFUL", "0").lower() not in ("0", "false", "no")`. -/
def use_graceful (w : World) : Bool :=
  ! (["0", "false", "no"].contains (pyLower (pyGetenvD w "HIVE_DEV_GRACEFUL" "0")))

/-- `keep_postgres` flag of `serve_local` (`service.py` line 146):
`os.getenv("HIVE_DEV_KEEP_POSTGRES", "0").lower() in ("1", "true", "yes")`. -/
def keep_postgres (w : World) : Bool :=
  ["1", "true", "yes"].contains (pyLower (pyGetenvD w "HIVE_DEV_KEEP_POSTGRES" "0"))

/-- `actual_port` of `serve_local` (`service.py` line 73):
`port or int(os.getenv("HIVE_API_PORT", "8886"))`, with Python falsiness
(a passed port of 0 also falls back to the environment). -/
def actualPort (w : World) (port : Option Int) : Option Int :=
  match port with
  | some p => if p = 0 then pyIntParse (pyGetenvD w "HIVE_API_PORT" "8886") else some p
  | none => pyIntParse (pyGetenvD w "HIVE_API_PORT" "8886")

/-- POSIX `KeyboardInterrupt` handling in `serve_local` (`service.py`
lines 129-140): `os.killpg(..., SIGTERM)` (a `ProcessLookupError` is
swallowed), `proc.wait(timeout=10)`, and on its expiry
`os.killpg(..., SIGKILL)` with all exceptions swallowed. -/
def posixInterruptActs (w : World) : List Act :=
  [.signalGroupTerm, .waitBounded] ++
    (match w.waitBoundedRC with
     | some _ => []
     | none => [.signalGroupKill])

/-- Windows `KeyboardInterrupt` handling in `serve_local` (`service.py`
lines 119-128): `send_signal(CTRL_BREAK_EVENT)` falling back to
`terminate()`, then `proc.wait(timeout=10)` escalating to `kill()`. -/
def windowsInterruptActs (w : World) : List Act :=
  [.ctrlBreakSignal] ++ (if w.sendSignalOk then [] else [.terminateProc]) ++
    [.waitBoundedWin] ++
    (match w.waitBoundedRC with
     | some _ => []
     | none => [.killProc])

/-- The server-process phase of `serve_local` (`service.py` lines 96-141):
returned value (`none` when an exception escapes), actions performed, and
the escaping exception. In the non-graceful path `subprocess.run` returns
`True` regardless of the exit code and a `KeyboardInterrupt` returns
`True`; in the graceful path the exit code decides the boolean and an
interrupt runs the signal/wait/kill sequence and returns `True`. -/
def serverPhase (w : World) : Option Bool × List Act × Option PyExn :=
  if use_graceful w then
    match w.serverRun with
    | .osError m => (none, [.spawnServer], some (.osErr m))
    | .exited rc => (some (rc == 0), [.spawnServer, .waitServer], none)
    | .interrupted =>
      (some true,
        [.spawnServer, .waitServer] ++
          (if w.isWindows then windowsInterruptActs w else posixInterruptActs w),
        none)
  else
    match w.serverRun with
    | .osError m => (none, [.runServer], some (.osErr m))
    | .exited _ => (some true, [.runServer], none)
    | .interrupted => (some true, [.runServer], none)

/-- The `try`-block body of `serve_local` (`service.py` lines 66-141).
`val = (outcome, postgres_started)`: `outcome = some b` when the body
returned `b`, `none` when it raised (`exn` holds the exception); a port
string that `int()` rejects raises `ValueError` before anything else. -/
def serveLocalBody (w : World) (host : Option String) (port : Option Int) :
    Step (Option Bool × Bool) :=
  match actualPort w port with
  | none => ⟨(none, false), [], [], some .valueError⟩
  | some p =>
    let e := _ensure_postgres_dependency w
    let ph := serverPhase w
    ⟨(ph.1, e.val.2),
      e.invs ++ ph.2.1,
      ["🚀 Starting local development server on "
          ++ pyOrStr host (pyGetenvD w "HIVE_API_HOST" "0.0.0.0") ++ ":" ++ toString p]
        ++ e.msgs
        ++ (if e.val.1 then []
            else ["⚠️ PostgreSQL dependency check failed - server may not start properly"]),
      ph.2.2⟩

/-- The body of `serve_local` wrapped by its `except OSError` handler
(`service.py` lines 142-144): an `OSError` becomes a printed failure and a
returned `False`. -/
def serveLocalTried (w : World) (host : Option String) (port : Option Int) :
    Step (Option Bool × Bool) :=
  let b := serveLocalBody w host port
  match b.exn with
  | some (.osErr m) =>
    ⟨(some false, b.val.2), b.invs, b.msgs ++ ["❌ Failed to start local server: " ++ m], none⟩
  | _ => b

/-- The `finally` block of `serve_local` (`service.py` lines 145-151):
skip teardown when the keep override is truthy, else tear down when this
invocation started the dependency or the freshness probe (a second
`get_main_status` call, modelled by `probeLater`) reports it active. -/
def serveLocalFinally (w : World) (postgres_started : Bool) : Step Unit :=
  if keep_postgres w then
    ⟨(), [], ["🛑 Postgres cleanup skipped (HIVE_DEV_KEEP_POSTGRES enabled)"], none⟩
  else if postgres_started || _is_postgres_dependency_active { w with probe := w.probeLater } then
    _stop_postgres_dependency w
  else ⟨(), [], [], none⟩

/-- `ServiceManager.serve_local` (`service.py` lines 60-151).
`val = some b` when it returned `b`; `val = none` with `exn = some e` when
an exception escaped (an exception raised in the `finally` block replaces
the body's outcome, as in Python). -/
def serve_local (w : World) (host : Option String) (port : Option Int) :
    Step (Option Bool) :=
  ⟨(match (serveLocalFinally w (serveLocalTried w host port).val.2).exn with
    | some _ => none
    | none => (serveLocalTried w host port).val.1),
    (serveLocalTried w host port).invs
      ++ (serveLocalFinally w (serveLocalTried w host port).val.2).invs,
    (serveLocalTried w host port).msgs
      ++ (serveLocalFinally w (serveLocalTried w host port).val.2).msgs,
    match (serveLocalFinally w (serveLocalTried w host port).val.2).exn with
    | some e => some e
    | none => (serveLocalTried w host port).exn⟩

/-- The ways a status query of the external container runtime can turn
out, used by the spec-modelled status prober below. -/
inductive ProbeQuery where
  | success (text : String)
  | missingBinary
  | nonZeroExit
  | timeout
  | exnOther
  deriving DecidableEq, Repr

/-- Modelled from the spec: the implementation of the status probe
(`MainService.get_main_status`, in `cli/core/main_service.py`) is not
among this repository's sources — only its caller
`cli/commands/service.py` is. Per spec section 4.2, the prober delegates
to an external status query, classifies Running by a checkmark-style
substring of the returned text, and treats "any failure to query (missing
binary, non-zero exit, timeout)" as Stopped. -/
def statusLabelOfQuery (q : ProbeQuery) : String :=
  match q with
  | .success text => if strContains text "✅" then "✅ Running" else "🛑 Stopped"
  | _ => "🛑 Stopped"

/-- Stop/remove invocations against the container runtime, the actions
the keep-alive override must suppress. -/
def isStopRemoveAct : Act → Bool
  | .composeStop _ => true
  | .composeRm _ => true
  | .dockerStop => true
  | .dockerRm => true
  | _ => false

/-- A baseline environment: workspace `/ws`, nothing on disk, dependency
reported stopped, every subprocess completing with exit code 0. -/
def baseWorld : World :=
  { workspacePath := "/ws"
    resolveWorkspace := .ok "/ws"
    fsExists := fun _ => false
    probe := .ok [("hive-postgres", "🛑 Stopped")]
    probeLater := .ok []
    envVar := fun _ => none
    run := fun _ _ => .completed 0 "" ""
    serverRun := .exited 0
    isWindows := false
    killpgFound := true
    waitBoundedRC := some 0
    sendSignalOk := true }

/-- Environment where the root compose file exists and the compose-based
stop raises an exception that is neither `TimeoutExpired` nor
`FileNotFoundError` (e.g. a `PermissionError` from `subprocess.run`). -/
def exnWorld : World :=
  { baseWorld with
    fsExists := fun p => p == "/ws/docker-compose.yml"
    run := fun _ _ => .otherExn "permission denied" }

/-- Environment for the fallback chain: root compose file present,
compose stop exits non-zero, direct `docker stop` succeeds. -/
def fallbackWorld : World :=
  { baseWorld with
    fsExists := fun p => p == "/ws/docker-compose.yml"
    run := fun a _ =>
      match a with
      | .composeStop _ => .completed 1 "" "some compose error"
      | _ => .completed 0 "" "" }

/-- Environment where the probe reports the dependency running. -/
def runningWorld : World :=
  { baseWorld with probe := .ok [("hive-postgres", "✅ Running (Port: 5532)")] }

/-- Environment where preconditions hold but the compose `up` times out. -/
def timeoutWorld : World :=
  { baseWorld with
    fsExists := fun p => p == "/ws/docker-compose.yml" || p == "/ws/.env"
    run := fun a _ =>
      match a with
      | .composeUp _ => .timedOut
      | _ => .completed 0 "" "" }

/-- Environment with the keep-alive override enabled. -/
def keepWorld : World :=
  { baseWorld with
    envVar := fun n => if n == "HIVE_DEV_KEEP_POSTGRES" then some "1" else none }

/-- Environment where the status probe raises. -/
def probeExnWorld : World :=
  { baseWorld with probe := .exn "connection refused" }

/-- Environment for the graceful-shutdown path: graceful switch enabled,
POSIX, the server wait interrupted, and the bounded post-signal wait
expiring (so the kill escalation runs); the dependency is active at exit. -/
def interruptWorld : World :=
  { baseWorld with
    envVar := fun n => if n == "HIVE_DEV_GRACEFUL" then some "1" else none
    serverRun := .interrupted
    waitBoundedRC := none
    probeLater := .ok [("hive-postgres", "✅ Running (Port: 5532)")] }

/-- Environment where resolving the workspace root raises and only the
raw-path root compose file exists. -/
def rawPathWorld : World :=
  { baseWorld with
    resolveWorkspace := .error .runtimeError
    fsExists := fun p => p == "/ws/docker/main/docker-compose.yml" }

/-- Environment where the server subprocess exits non-zero in the default
(non-graceful) mode. -/
def exitFiveWorld : World :=
  { baseWorld with serverRun := .exited 5 }




theorem Step.seq_of_exn_none {α β : Type} [Inhabited β] (s : Step α) (f : α → Step β)
    (h : s.exn = none) :
    s.seq f = ⟨(f s.val).val, s.invs ++ (f s.val).invs, s.msgs ++ (f s.val).msgs, (f s.val).exn⟩ := by
  unfold Step.seq
  rw [h]

theorem Step.seq_of_exn_some {α β : Type} [Inhabited β] (s : Step α) (f : α → Step β)
    (e : PyExn) (h : s.exn = some e) :
    s.seq f = ⟨default, s.invs, s.msgs, some e⟩ := by
  unfold Step.seq
  rw [h]

/-- C9: the compose locator prefers `{workspace}/docker/main/docker-compose.yml`,
falls back to `{workspace}/docker-compose.yml`, returns `none` when neither
exists, and a path-resolution error on the workspace root makes it use the
raw unresolved path instead of failing. -/
theorem resolve_compose_file_spec (w : World) :
    (w.fsExists (effWorkspace w ++ "/docker/main/docker-compose.yml") = true →
      _resolve_compose_file w = some (effWorkspace w ++ "/docker/main/docker-compose.yml"))
    ∧ (w.fsExists (effWorkspace w ++ "/docker/main/docker-compose.yml") = false →
        w.fsExists (effWorkspace w ++ "/docker-compose.yml") = true →
        _resolve_compose_file w = some (effWorkspace w ++ "/docker-compose.yml"))
    ∧ (w.fsExists (effWorkspace w ++ "/docker/main/docker-compose.yml") = false →
        w.fsExists (effWorkspace w ++ "/docker-compose.yml") = false →
        _resolve_compose_file w = none)
    ∧ (∀ e : ResolveErr, w.resolveWorkspace = .error e →
        _resolve_compose_file w = composeFileAt w w.workspacePath) := by
  refine ⟨fun h1 => ?_, fun h1 h2 => ?_, fun h1 h2 => ?_, fun e he => ?_⟩
  · unfold _resolve_compose_file composeFileAt
    simp [h1]
  · unfold _resolve_compose_file composeFileAt
    simp [h1, h2]
  · unfold _resolve_compose_file composeFileAt
    simp [h1, h2]
  · unfold _resolve_compose_file effWorkspace
    rw [he]

/-- C9 witness: with resolution raising a `RuntimeError` and the compose
file present under the raw path, the locator still finds it. -/
theorem resolve_compose_file_spec_witness :
    _resolve_compose_file rawPathWorld = composeFileAt rawPathWorld "/ws"
    ∧ _resolve_compose_file rawPathWorld = some "/ws/docker/main/docker-compose.yml" := by
  refine ⟨(resolve_compose_file_spec rawPathWorld).2.2.2 .runtimeError rfl, ?_⟩
  have h := (resolve_compose_file_spec rawPathWorld).1 (by decide)
  simpa using h

/-- C3: whenever the status probe reports the dependency Running
(the probed map's `hive-postgres` entry contains "✅ Running"),
`_ensure_postgres_dependency` returns `(true, false)` with no external
invocation at all — the result is this fixed step, so no compose-file or
`.env` check can influence it. -/
theorem ensure_running_is_noop (w : World) (m : List (String × String))
    (hp : w.probe = .ok m)
    (hr : strContains (dictGet m "hive-postgres" "") "✅ Running" = true) :
    _ensure_postgres_dependency w =
      ⟨(true, false), [], ["✅ PostgreSQL dependency is already running"], none⟩ := by
  unfold _ensure_postgres_dependency
  rw [hp]
  simp [hr]

/-- C3 witness: a concrete probe map reporting Running. -/
theorem ensure_running_is_noop_witness :
    _ensure_postgres_dependency runningWorld =
      ⟨(true, false), [], ["✅ PostgreSQL dependency is already running"], none⟩ :=
  ensure_running_is_noop runningWorld [("hive-postgres", "✅ Running (Port: 5532)")]
    rfl (by decide)

/-- C6: when the probe does not report Running and no compose file exists
at either candidate path, `_ensure_postgres_dependency` returns
`(false, false)`, surfaces the run-setup instruction, and performs no
invocation beyond the probe. -/
theorem ensure_missing_descriptor (w : World) (m : List (String × String))
    (hp : w.probe = .ok m)
    (hr : strContains (dictGet m "hive-postgres" "") "✅ Running" = false)
    (hc : _resolve_compose_file w = none) :
    _ensure_postgres_dependency w =
      ⟨(false, false), [],
        ["❌ Docker compose file not found. Run --install to set up the environment."], none⟩ := by
  unfold _ensure_postgres_dependency
  rw [hp]
  simp [hr, hc]

/-- C6 witness: empty filesystem, dependency reported stopped. -/
theorem ensure_missing_descriptor_witness :
    _ensure_postgres_dependency baseWorld =
      ⟨(false, false), [],
        ["❌ Docker compose file not found. Run --install to set up the environment."], none⟩ :=
  ensure_missing_descriptor baseWorld [("hive-postgres", "🛑 Stopped")]
    rfl (by decide) (by decide)

/-- C4: when the compose `up` start invocation (run with the fixed
60-second bound) times out or exits non-zero,
`_ensure_postgres_dependency` returns `(false, false)`, reports the
captured error, and raises nothing. -/
theorem ensure_start_failure (w : World) (m : List (String × String)) (f : String)
    (hp : w.probe = .ok m)
    (hr : strContains (dictGet m "hive-postgres" "") "✅ Running" = false)
    (hc : _resolve_compose_file w = some f)
    (he : w.fsExists (w.workspacePath ++ "/.env") = true) :
    (w.run (.composeUp f) 60 = .timedOut →
      _ensure_postgres_dependency w =
        ⟨(false, false), [.composeUp f],
          ["🔍 PostgreSQL dependency not running, starting automatically...",
           "❌ Timeout starting PostgreSQL container"], none⟩)
    ∧ (∀ rc out err, w.run (.composeUp f) 60 = .completed rc out err → rc ≠ 0 →
        _ensure_postgres_dependency w =
          ⟨(false, false), [.composeUp f],
            ["🔍 PostgreSQL dependency not running, starting automatically...",
             "❌ Failed to start PostgreSQL: " ++ err], none⟩) := by
  constructor
  · intro ht
    unfold _ensure_postgres_dependency
    rw [hp]
    simp [hr, hc, he, ht]
  · intro rc out err hrun hrc
    unfold _ensure_postgres_dependency
    rw [hp]
    simp [hr, hc, he, hrun, hrc]

theorem composeRmBlock_invs (w : World) (f : String) :
    (composeRmBlock w f).invs = [.composeRm f] := by
  unfold composeRmBlock
  cases w.run (.composeRm f) 30 with
  | completed rc out err => by_cases hrc : rc = 0 <;> simp [hrc]
  | timedOut => rfl
  | fileNotFound => rfl
  | otherExn m => rfl

theorem remove_by_container_invs (w : World) :
    (_remove_postgres_by_container w).invs = [.dockerRm] := by
  unfold _remove_postgres_by_container
  cases w.run .dockerRm 30 with
  | completed rc out err => by_cases hrc : rc = 0 <;> simp [hrc]
  | timedOut => rfl
  | fileNotFound => rfl
  | otherExn m => rfl

theorem stop_by_container_invs (w : World) :
    (_stop_postgres_by_container w).invs = [.dockerStop] := by
  unfold _stop_postgres_by_container
  cases w.run .dockerStop 30 with
  | completed rc out err => by_cases hrc : rc = 0 <;> simp [hrc]
  | timedOut => rfl
  | fileNotFound => rfl
  | otherExn m => rfl

theorem stop_by_container_val_false (w : World)
    (hfail : ∀ out err, w.run .dockerStop 30 ≠ .completed 0 out err) :
    (_stop_postgres_by_container w).val = false := by
  unfold _stop_postgres_by_container
  cases hr : w.run .dockerStop 30 with
  | completed rc out err =>
    have hrc : rc ≠ 0 := by
      intro h0
      exact hfail out err (h0 ▸ hr)
    simp [hrc]
  | timedOut => rfl
  | fileNotFound => rfl
  | otherExn m => rfl

theorem composeStopBlock_exn_none (w : World) (f : String)
    (h : ∀ m, w.run (.composeStop f) 30 ≠ .otherExn m) :
    (composeStopBlock w f).exn = none := by
  unfold composeStopBlock
  cases hr : w.run (.composeStop f) 30 with
  | completed rc out err => by_cases hrc : rc = 0 <;> simp [hrc]
  | timedOut => rfl
  | fileNotFound => rfl
  | otherExn m => exact absurd hr (h m)

theorem stop_by_container_exn_none (w : World)
    (h : ∀ m, w.run .dockerStop 30 ≠ .otherExn m) :
    (_stop_postgres_by_container w).exn = none := by
  unfold _stop_postgres_by_container
  cases hr : w.run .dockerStop 30 with
  | completed rc out err => by_cases hrc : rc = 0 <;> simp [hrc]
  | timedOut => rfl
  | fileNotFound => rfl
  | otherExn m => exact absurd hr (h m)

theorem composeRmBlock_exn_none (w : World) (f : String)
    (h : ∀ m, w.run (.composeRm f) 30 ≠ .otherExn m) :
    (composeRmBlock w f).exn = none := by
  unfold composeRmBlock
  cases hr : w.run (.composeRm f) 30 with
  | completed rc out err => by_cases hrc : rc = 0 <;> simp [hrc]
  | timedOut => rfl
  | fileNotFound => rfl
  | otherExn m => exact absurd hr (h m)

theorem remove_by_container_exn_none (w : World)
    (h : ∀ m, w.run .dockerRm 30 ≠ .otherExn m) :
    (_remove_postgres_by_container w).exn = none := by
  unfold _remove_postgres_by_container
  cases hr : w.run .dockerRm 30 with
  | completed rc out err => by_cases hrc : rc = 0 <;> simp [hrc]
  | timedOut => rfl
  | fileNotFound => rfl
  | otherExn m => exact absurd hr (h m)

theorem stopStep1_eq_block (w : World) (f : String)
    (hc : _resolve_compose_file w = some f) :
    stopStep1 w = composeStopBlock w f := by
  unfold stopStep1
  rw [hc]

theorem stopStep1_exn_none (w : World)
    (h : ∀ a t m, w.run a t ≠ .otherExn m) :
    (stopStep1 w).exn = none := by
  unfold stopStep1
  cases _resolve_compose_file w with
  | some f => exact composeStopBlock_exn_none w f (fun m => h _ _ m)
  | none => rfl

theorem stopStep2_exn_none (w : World)
    (h : ∀ a t m, w.run a t ≠ .otherExn m) :
    (stopStep2 w).exn = none := by
  unfold stopStep2
  rw [Step.seq_of_exn_none _ _ (stopStep1_exn_none w h)]
  cases (stopStep1 w).val with
  | true => rfl
  | false => exact stop_by_container_exn_none w (fun m => h _ _ m)

theorem stop_dependency_exn_none (w : World)
    (h : ∀ a t m, w.run a t ≠ .otherExn m) :
    (_stop_postgres_dependency w).exn = none := by
  unfold _stop_postgres_dependency
  rw [Step.seq_of_exn_none _ _ (stopStep2_exn_none w h)]
  cases _resolve_compose_file w with
  | some f => exact composeRmBlock_exn_none w f (fun m => h _ _ m)
  | none =>
    cases (stopStep2 w).val with
    | true => exact remove_by_container_exn_none w (fun m => h _ _ m)
    | false => rfl

theorem stopStep2_msgs_decomp (w : World)
    (h : ∀ a t m, w.run a t ≠ .otherExn m) :
    ∃ rest, (stopStep2 w).msgs = (stopStep1 w).msgs ++ rest := by
  unfold stopStep2
  rw [Step.seq_of_exn_none _ _ (stopStep1_exn_none w h)]
  exact ⟨_, rfl⟩

theorem stop_dependency_msgs_decomp (w : World)
    (h : ∀ a t m, w.run a t ≠ .otherExn m) :
    ∃ rest, (_stop_postgres_dependency w).msgs = (stopStep1 w).msgs ++ rest := by
  obtain ⟨r1, h1⟩ := stopStep2_msgs_decomp w h
  have h2 : ∃ r, (_stop_postgres_dependency w).msgs = (stopStep2 w).msgs ++ r := by
    unfold _stop_postgres_dependency
    rw [Step.seq_of_exn_none _ _ (stopStep2_exn_none w h)]
    exact ⟨_, rfl⟩
  obtain ⟨r2, h2⟩ := h2
  exact ⟨r1 ++ r2, by rw [h2, h1, List.append_assoc]⟩

/-- C1 counterexample: teardown is not exception-proof. With the compose
file present and the compose `stop` invocation raising an exception that
is neither `TimeoutExpired` nor `FileNotFoundError` (a `PermissionError`,
say), `_stop_postgres_dependency` does not complete normally: the
exception propagates to the caller. -/
theorem teardown_raises_on_unexpected_exception :
    (_stop_postgres_dependency exnWorld).exn = some (.other "permission denied") := by
  decide

/-- C1 (amended): for every combination of compose file present/absent,
stop succeeding/failing, and runtime tool present/absent — that is,
whenever every invocation either completes with an exit code, times out,
or raises `FileNotFoundError` — teardown completes normally (no exception
propagates), and when a compose descriptor exists and its stop layer did
not succeed, at least one diagnostic line is reported. Exceptions of any
other type raised by an invocation propagate to the caller. -/
theorem teardown_best_effort (w : World)
    (h : ∀ a t m, w.run a t ≠ .otherExn m) :
    (_stop_postgres_dependency w).exn = none
    ∧ (∀ f, _resolve_compose_file w = some f →
        (∀ out err, w.run (.composeStop f) 30 ≠ .completed 0 out err) →
        (_stop_postgres_dependency w).msgs ≠ []) := by
  refine ⟨stop_dependency_exn_none w h, fun f hc hfail => ?_⟩
  obtain ⟨rest, hdec⟩ := stop_dependency_msgs_decomp w h
  have h1 : (stopStep1 w).msgs ≠ [] := by
    rw [stopStep1_eq_block w f hc]
    unfold composeStopBlock
    cases hr : w.run (.composeStop f) 30 with
    | completed rc out err =>
      have hrc : rc ≠ 0 := by
        intro h0
        exact hfail out err (h0 ▸ hr)
      simp [hrc]
    | timedOut => simp
    | fileNotFound => simp
    | otherExn m => exact absurd hr (h _ _ m)
  rw [hdec]
  simp only [ne_eq, List.append_eq_nil]
  intro hcontra
  exact h1 hcontra.1

/-- C1 witness: with every invocation completing, teardown returns
normally. -/
theorem teardown_best_effort_witness :
    (_stop_postgres_dependency baseWorld).exn = none :=
  (teardown_best_effort baseWorld (fun a t m hx => by simp [baseWorld] at hx)).1

/-- C2: when the compose-based stop exits non-zero but the direct
name-based stop succeeds, the removal step still issues the compose-based
remove (the full trace being compose-stop, docker-stop, compose-rm); with
no descriptor, the name-based remove is issued exactly when the
name-based stop succeeded. -/
theorem teardown_fallback_chain (w : World) :
    (∀ f rc out err, _resolve_compose_file w = some f →
      w.run (.composeStop f) 30 = .completed rc out err → rc ≠ 0 →
      ∀ out2 err2, w.run .dockerStop 30 = .completed 0 out2 err2 →
      (_stop_postgres_dependency w).invs = [.composeStop f, .dockerStop, .composeRm f])
    ∧ (_resolve_compose_file w = none →
        (∀ out2 err2, w.run .dockerStop 30 = .completed 0 out2 err2 →
          (_stop_postgres_dependency w).invs = [.dockerStop, .dockerRm])
        ∧ ((∀ out2 err2, w.run .dockerStop 30 ≠ .completed 0 out2 err2) →
            (_stop_postgres_dependency w).invs = [.dockerStop])) := by
  constructor
  · intro f rc out err hc hstop hrc out2 err2 hds
    have e1 : stopStep1 w =
        ⟨false, [.composeStop f],
          ["⚠️ PostgreSQL stop reported an issue: " ++ pyStrip err], none⟩ := by
      rw [stopStep1_eq_block w f hc]
      unfold composeStopBlock
      rw [hstop]
      simp [hrc]
    have e2 : stopStep2 w =
        ⟨true, [.composeStop f, .dockerStop],
          ["⚠️ PostgreSQL stop reported an issue: " ++ pyStrip err,
           "🛑 PostgreSQL dependency stopped (direct docker stop)"], none⟩ := by
      unfold stopStep2
      rw [e1, Step.seq_of_exn_none _ _ rfl]
      show Step.mk (_stop_postgres_by_container w).val _ _ _ = _
      unfold _stop_postgres_by_container
      rw [hds]
      simp
    unfold _stop_postgres_dependency
    rw [e2, Step.seq_of_exn_none _ _ rfl]
    rw [hc]
    simp [composeRmBlock_invs]
  · intro hc
    have e1 : stopStep1 w = ⟨false, [], [], none⟩ := by
      unfold stopStep1
      rw [hc]
    have e15 : stopStep2 w = _stop_postgres_by_container w := by
      unfold stopStep2
      rw [e1, Step.seq_of_exn_none _ _ rfl]
      simp
    constructor
    · intro out2 err2 hds
      have e2 : stopStep2 w =
          ⟨true, [.dockerStop],
            ["🛑 PostgreSQL dependency stopped (direct docker stop)"], none⟩ := by
        rw [e15]
        unfold _stop_postgres_by_container
        rw [hds]
        simp
      unfold _stop_postgres_dependency
      rw [e2, Step.seq_of_exn_none _ _ rfl]
      rw [hc]
      simp [remove_by_container_invs]
    · intro hfail
      have hval : (stopStep2 w).val = false := by
        rw [e15]
        exact stop_by_container_val_false w hfail
      have hinvs : (stopStep2 w).invs = [.dockerStop] := by
        rw [e15]
        exact stop_by_container_invs w
      unfold _stop_postgres_dependency
      cases hex : (stopStep2 w).exn with
      | some e =>
        rw [Step.seq_of_exn_some _ _ e hex]
        exact hinvs
      | none =>
        rw [Step.seq_of_exn_none _ _ hex]
        rw [hc, hval]
        simpa using hinvs

/-- C2 witness: compose stop exits 1, docker stop succeeds; the compose
remove is still attempted. -/
theorem teardown_fallback_chain_witness :
    (_stop_postgres_dependency fallbackWorld).invs =
      [.composeStop "/ws/docker-compose.yml", .dockerStop,
       .composeRm "/ws/docker-compose.yml"] :=
  (teardown_fallback_chain fallbackWorld).1 "/ws/docker-compose.yml" 1 "" "some compose error"
    (by decide) rfl (by decide) "" "" rfl

/-- C4 witness: with preconditions satisfied and the start timing out,
ensure returns `(false, false)` without raising. -/
theorem ensure_start_failure_witness :
    _ensure_postgres_dependency timeoutWorld =
      ⟨(false, false), [.composeUp "/ws/docker-compose.yml"],
        ["🔍 PostgreSQL dependency not running, starting automatically...",
         "❌ Timeout starting PostgreSQL container"], none⟩ :=
  (ensure_start_failure timeoutWorld [("hive-postgres", "🛑 Stopped")]
    "/ws/docker-compose.yml" rfl (by decide) (by decide) (by decide)).1 rfl

/-- C7: every failure of the status probe is classified as Stopped: the
spec-modelled prober labels every non-success query Stopped, a raising
probe makes the activity check return `false`, and `docker_status`
defaults to the all-Stopped map; a probe failure is never read as
Running. -/
theorem probe_failure_is_stopped :
    (∀ q : ProbeQuery, (∀ t, q ≠ .success t) → statusLabelOfQuery q = "🛑 Stopped")
    ∧ (∀ w : World, ∀ msg, w.probe = .exn msg → _is_postgres_dependency_active w = false)
    ∧ (∀ w : World, ∀ msg, w.probe = .exn msg →
        docker_status w = [("hive-postgres", "🛑 Stopped"), ("hive-api", "🛑 Stopped")]) := by
  refine ⟨fun q hq => ?_, fun w msg hp => ?_, fun w msg hp => ?_⟩
  · cases q with
    | success t => exact absurd rfl (hq t)
    | missingBinary => rfl
    | nonZeroExit => rfl
    | timeout => rfl
    | exnOther => rfl
  · unfold _is_postgres_dependency_active
    rw [hp]
  · unfold docker_status
    rw [hp]

/-- C7 witness: a timed-out query is labelled Stopped, and a raising
probe yields an inactive classification. -/
theorem probe_failure_is_stopped_witness :
    statusLabelOfQuery ProbeQuery.timeout = "🛑 Stopped"
    ∧ _is_postgres_dependency_active probeExnWorld = false :=
  ⟨probe_failure_is_stopped.1 .timeout (fun _ h => ProbeQuery.noConfusion h),
   probe_failure_is_stopped.2.1 probeExnWorld "connection refused" rfl⟩

theorem ensure_invs_filter (w : World) :
    (_ensure_postgres_dependency w).invs.filter isStopRemoveAct = [] := by
  unfold _ensure_postgres_dependency
  simp only []
  repeat' split
  all_goals rfl

theorem serverPhase_invs_filter (w : World) :
    (serverPhase w).2.1.filter isStopRemoveAct = [] := by
  unfold serverPhase posixInterruptActs windowsInterruptActs
  repeat' split
  all_goals rfl

theorem serveLocalBody_invs_filter (w : World) (host : Option String) (port : Option Int) :
    (serveLocalBody w host port).invs.filter isStopRemoveAct = [] := by
  unfold serveLocalBody
  cases actualPort w port with
  | none => rfl
  | some p =>
    simp [List.filter_append, ensure_invs_filter, serverPhase_invs_filter]

theorem serveLocalTried_invs (w : World) (host : Option String) (port : Option Int) :
    (serveLocalTried w host port).invs = (serveLocalBody w host port).invs := by
  unfold serveLocalTried
  simp only []
  repeat' split
  all_goals rfl

/-- C5: with the keep-dependency override set to a truthy string the full
start→exit cycle performs zero stop/remove invocations and reports the
skip; with the override absent or falsy, the exit path performs the
teardown whenever this invocation started the dependency or the exit-time
probe still reports it active. -/
theorem keep_override_honored (w : World) (host : Option String) (port : Option Int) :
    (keep_postgres w = true →
      (serve_local w host port).invs.filter isStopRemoveAct = []
      ∧ "🛑 Postgres cleanup skipped (HIVE_DEV_KEEP_POSTGRES enabled)"
          ∈ (serve_local w host port).msgs)
    ∧ (keep_postgres w = false →
        ((serveLocalTried w host port).val.2 = true
          ∨ _is_postgres_dependency_active { w with probe := w.probeLater } = true) →
        ∃ pre, (serve_local w host port).invs = pre ++ (_stop_postgres_dependency w).invs) := by
  constructor
  · intro hk
    have hf : serveLocalFinally w (serveLocalTried w host port).val.2 =
        ⟨(), [], ["🛑 Postgres cleanup skipped (HIVE_DEV_KEEP_POSTGRES enabled)"], none⟩ := by
      unfold serveLocalFinally
      simp [hk]
    constructor
    · show ((serveLocalTried w host port).invs
        ++ (serveLocalFinally w (serveLocalTried w host port).val.2).invs).filter
          isStopRemoveAct = []
      rw [hf]
      simp [List.filter_append, serveLocalTried_invs, serveLocalBody_invs_filter]
    · show _ ∈ (serveLocalTried w host port).msgs
        ++ (serveLocalFinally w (serveLocalTried w host port).val.2).msgs
      rw [hf]
      simp
  · intro hk hact
    have hf : serveLocalFinally w (serveLocalTried w host port).val.2 =
        _stop_postgres_dependency w := by
      unfold serveLocalFinally
      cases hact with
      | inl hs => simp [hk, hs]
      | inr ha => simp [hk, ha]
    refine ⟨(serveLocalTried w host port).invs, ?_⟩
    show (serveLocalTried w host port).invs
        ++ (serveLocalFinally w (serveLocalTried w host port).val.2).invs = _
    rw [hf]

/-- C5 witness: with `HIVE_DEV_KEEP_POSTGRES=1` a full cycle issues no
stop or remove invocation and reports the skip. -/
theorem keep_override_honored_witness :
    (serve_local keepWorld none none).invs.filter isStopRemoveAct = []
    ∧ "🛑 Postgres cleanup skipped (HIVE_DEV_KEEP_POSTGRES enabled)"
        ∈ (serve_local keepWorld none none).msgs :=
  (keep_override_honored keepWorld none none).1 (by decide)

theorem serveLocalBody_proj (w : World) (host : Option String) (port : Option Int)
    (p : Int) (hport : actualPort w port = some p) :
    (serveLocalBody w host port).val.1 = (serverPhase w).1
    ∧ (serveLocalBody w host port).val.2 = (_ensure_postgres_dependency w).val.2
    ∧ (serveLocalBody w host port).invs
        = (_ensure_postgres_dependency w).invs ++ (serverPhase w).2.1
    ∧ (serveLocalBody w host port).exn = (serverPhase w).2.2 := by
  unfold serveLocalBody
  rw [hport]
  exact ⟨rfl, rfl, rfl, rfl⟩

theorem serveLocalTried_of_exn_none (w : World) (host : Option String) (port : Option Int)
    (hb : (serveLocalBody w host port).exn = none) :
    serveLocalTried w host port = serveLocalBody w host port := by
  unfold serveLocalTried
  simp only []
  rw [hb]

theorem serveLocalFinally_exn_none (w : World) (s : Bool)
    (hno : ∀ a t m, w.run a t ≠ .otherExn m) :
    (serveLocalFinally w s).exn = none := by
  unfold serveLocalFinally
  split
  · rfl
  · split
    · exact stop_dependency_exn_none w hno
    · rfl

theorem serve_local_val_of_fin_none (w : World) (host : Option String) (port : Option Int)
    (hno : ∀ a t m, w.run a t ≠ .otherExn m) :
    (serve_local w host port).val = (serveLocalTried w host port).val.1 := by
  show (match (serveLocalFinally w (serveLocalTried w host port).val.2).exn with
        | some _ => none
        | none => (serveLocalTried w host port).val.1) = _
  rw [serveLocalFinally_exn_none w _ hno]

/-- C8: in the graceful-shutdown mode on POSIX, an interrupt during the
server wait leads to signalling the process group, a bounded wait, and a
kill escalation exactly when the bounded wait expires; the body returns
the handled-gracefully `true` outcome without propagating the interrupt,
and the exit path (the `finally` equivalent) still runs after it. -/
theorem interrupt_graceful_shutdown (w : World) (host : Option String) (port : Option Int)
    (p : Int) (hport : actualPort w port = some p)
    (hg : use_graceful w = true)
    (hint : w.serverRun = .interrupted)
    (hwin : w.isWindows = false) :
    (serveLocalTried w host port).val.1 = some true
    ∧ (serveLocalTried w host port).exn = none
    ∧ (∃ pre, (serveLocalTried w host port).invs =
        pre ++ ([.signalGroupTerm, .waitBounded] ++
          (match w.waitBoundedRC with | some _ => [] | none => [.signalGroupKill])))
    ∧ (serve_local w host port).invs =
        (serveLocalTried w host port).invs
          ++ (serveLocalFinally w (serveLocalTried w host port).val.2).invs := by
  have hph : serverPhase w =
      (some true, [Act.spawnServer, Act.waitServer] ++ posixInterruptActs w, none) := by
    unfold serverPhase
    simp [hg, hint, hwin]
  obtain ⟨hv1, hv2, hin, hex⟩ := serveLocalBody_proj w host port p hport
  have hbex : (serveLocalBody w host port).exn = none := by
    rw [hex, hph]
  have ht := serveLocalTried_of_exn_none w host port hbex
  refine ⟨?_, ?_, ?_, rfl⟩
  · rw [ht, hv1, hph]
  · rw [ht, hbex]
  · refine ⟨(_ensure_postgres_dependency w).invs ++ [Act.spawnServer, Act.waitServer], ?_⟩
    rw [ht, hin, hph]
    unfold posixInterruptActs
    simp

/-- C8 witness: interrupted graceful run with the bounded wait expiring;
the body returns `some true`. -/
theorem interrupt_graceful_shutdown_witness :
    (serveLocalTried interruptWorld none none).val.1 = some true :=
  (interrupt_graceful_shutdown interruptWorld none none 8886
    (by decide) (by decide) rfl rfl).1

/-- C10: in the default (non-graceful) mode `serve_local` returns `true`
whatever the server's exit code; the exit code decides the returned
boolean only in graceful mode when the wait was not interrupted, and an
interrupted graceful wait also returns `true`. -/
theorem serve_local_return_value (w : World) (host : Option String) (port : Option Int)
    (p : Int) (hport : actualPort w port = some p)
    (hno : ∀ a t m, w.run a t ≠ .otherExn m) :
    (use_graceful w = false → ∀ rc, w.serverRun = .exited rc →
      (serve_local w host port).val = some true)
    ∧ (use_graceful w = true → ∀ rc, w.serverRun = .exited rc →
        (serve_local w host port).val = some (rc == 0))
    ∧ (use_graceful w = true → w.serverRun = .interrupted →
        (serve_local w host port).val = some true) := by
  obtain ⟨hv1, hv2, hin, hex⟩ := serveLocalBody_proj w host port p hport
  have hval := serve_local_val_of_fin_none w host port hno
  refine ⟨fun hg rc hrun => ?_, fun hg rc hrun => ?_, fun hg hrun => ?_⟩
  · have hph : serverPhase w = (some true, [Act.runServer], none) := by
      unfold serverPhase
      simp [hg, hrun]
    have hbex : (serveLocalBody w host port).exn = none := by
      rw [hex, hph]
    rw [hval, serveLocalTried_of_exn_none w host port hbex, hv1, hph]
  · have hph : serverPhase w = (some (rc == 0), [Act.spawnServer, Act.waitServer], none) := by
      unfold serverPhase
      simp [hg, hrun]
    have hbex : (serveLocalBody w host port).exn = none := by
      rw [hex, hph]
    rw [hval, serveLocalTried_of_exn_none w host port hbex, hv1, hph]
  · have hph1 : (serverPhase w).1 = some true := by
      unfold serverPhase
      simp [hg, hrun]
    have hph2 : (serverPhase w).2.2 = none := by
      unfold serverPhase
      simp [hg, hrun]
    have hbex : (serveLocalBody w host port).exn = none := by
      rw [hex, hph2]
    rw [hval, serveLocalTried_of_exn_none w host port hbex, hv1, hph1]

/-- C10 witness: server exits with code 5 in default mode; `serve_local`
still returns `true`. -/
theorem serve_local_return_value_witness :
    (serve_local exitFiveWorld none none).val = some true :=
  (serve_local_return_value exitFiveWorld none none 8886 (by decide)
    (fun a t m hx => by simp [exitFiveWorld, baseWorld] at hx)).1 rfl 5 rfl
